import Mathlib

/-!
Shallow embedding of `packages/indexer-service/src/receipt-manager.ts`
(the `ReceiptManager` class) and proofs about its behaviour.

The wallet collaborator (`pushMessage`, `joinChannel`, `updateChannelFunding`,
`updateChannel`, `getState`), the pure transition function `computeNextState`
and the pure `calculateChannelId` are external; they are modelled as
parameters (a `Wallet` structure of deterministic functions, and plain
function arguments).  Each `ReceiptManager` method becomes a Lean function
that takes the wallet and the current channel-state cache and returns
`Except RMError` of its result, the new cache, and the list of wallet calls
it performed (so that "operation X was / was not invoked" is expressible).

JavaScript runtime errors that the TypeScript source can raise by accessing
a property of `undefined` (e.g. destructuring `outbox[0].params` from an
empty outbox, or reading `allocations[0].allocationItems` of a channel with
no allocations) are modelled as `RMError.typeError`; the `Error` objects the
source throws explicitly each get their own constructor, named after the
spec's error taxonomy.
-/

namespace ReceiptManager

/-- Channel identifiers are opaque strings (the wallet derives them). -/
abbrev ChannelId := String

/-- Channel statuses from the client API schema; the source compares against
the string literals for `proposed`, `running` and `closed`. -/
inductive ChannelStatus where
  | proposed
  | opening
  | funding
  | running
  | challenging
  | responding
  | closing
  | closed
deriving DecidableEq, Repr

/-- One funding item inside an allocation: an amount owed to a destination.
Amounts are `BN` big numbers in the source (non-negative), modelled as `Nat`;
`BN.add` is `Nat.add`, `BN.from(0)` is `0`, `BN.eq(x, 0)` is `x = 0`. -/
structure AllocationItem where
  destination : String
  amount : Nat
deriving DecidableEq, Repr

/-- An allocation: a token together with its allocation items. -/
structure Allocation where
  token : String
  allocationItems : List AllocationItem
deriving DecidableEq, Repr

/-- The authoritative snapshot of a channel returned by the wallet. -/
structure ChannelResult where
  channelId : ChannelId
  status : ChannelStatus
  allocations : List Allocation
  appData : String
  turnNum : Nat
deriving DecidableEq, Repr

/-- The immutable channel constants from which `calculateChannelId` derives
the channel identifier. -/
structure ChannelConstants where
  chainId : Nat
  channelNonce : Nat
  participants : List String
  challengeDuration : Nat
deriving DecidableEq, Repr

/-- A signed state: its channel constants (spread into `ChannelConstants` by
`getExistingChannelId`) plus turn-specific data. -/
structure SignedState where
  constants : ChannelConstants
  turnNum : Nat
  sig : String
deriving DecidableEq, Repr

/-- The wallet-protocol payload of a wire message (`Message` from
wallet-core); the source only ever reads its `signedStates`. -/
structure WalletMessage where
  signedStates : List SignedState
deriving DecidableEq, Repr

/-- A wire message: routing metadata plus a payload.  The source casts the
untyped `data` field to `WalletMessage` or `SignedState[]` as needed, so the
payload type is a parameter. -/
structure WireMessage (α : Type) where
  sender : String
  recipient : String
  data : α
deriving DecidableEq, Repr

/-- A wallet outbox item; the source only reads its `params`, which it treats
as a wire message carrying a `WalletMessage`. -/
structure OutboxItem where
  params : WireMessage WalletMessage
deriving DecidableEq, Repr

/-- The errors the embedded operations can surface.  The first five name the
`throw new Error(...)` sites of the source (using the spec's taxonomy names);
`typeError` stands for a JavaScript `TypeError` raised by reading a property
of `undefined`. -/
inductive RMError where
  | noChannelUpdate
  | malformedJoinOutbox
  | undefinedPostFundState
  | unrecognizedProtocolTransition
  | channelNotFound
  | typeError
deriving DecidableEq, Repr

/-- A record of one call made to the wallet collaborator. -/
inductive WalletCall where
  | pushMessage (data : WalletMessage)
  | joinChannel (channelResult : ChannelResult)
  | updateChannelFunding (channelId : ChannelId) (token : String) (amount : Nat)
  | updateChannel (channelId : ChannelId) (appData : String) (allocations : List Allocation)
  | getState (channelId : ChannelId)
deriving DecidableEq, Repr

/-- The wallet collaborator, modelled as deterministic functions mirroring
the contract `pushMessage -> \x7bchannelResults, outbox\x7d`,
`joinChannel -> \x7boutbox\x7d`, `updateChannelFunding -> \x7boutbox\x7d`,
`updateChannel -> \x7bchannelResult, outbox\x7d`,
`getState -> \x7bchannelResult\x7d` (the last possibly absent). -/
structure Wallet where
  pushMessage : WalletMessage → List ChannelResult × List OutboxItem
  joinChannel : ChannelResult → List OutboxItem
  updateChannelFunding : ChannelId → String → Nat → List OutboxItem
  updateChannel : ChannelId → String → List Allocation → ChannelResult × List OutboxItem
  getState : ChannelId → Option ChannelResult

/-- The process-local channel state cache `cachedState`, a mapping from
channel identifier to the last known channel result. -/
abbrev Cache := ChannelId → Option ChannelResult

/-- The attestation payload `\x7bresponseCID, signature\x7d`. -/
structure SCAttestation where
  responseCID : String
  signature : String
deriving DecidableEq, Repr

/-- The target application state type of a settlement step. -/
inductive StateType where
  | attestationProvided
  | queryDeclined
deriving DecidableEq, Repr

/-- The result of the external pure `computeNextState` function: the next app
data and next allocations. -/
structure NextStateResult where
  appData : String
  allocation : List Allocation
deriving DecidableEq, Repr

/-- The type of the external pure `computeNextState` collaborator (the
constant `query: \x7brequestCID: ''\x7d` argument of the source is omitted:
the source always passes the same value and marks it unused). -/
abbrev ComputeNextState :=
  String → List Allocation → StateType → SCAttestation → NextStateResult

/-- Method `getChannelState` (lines 189-195): return the cached channel result if
present, otherwise fetch it from the wallet, store the fetched value in the
cache, and return it. -/
def getChannelState (w : Wallet) (cache : Cache) (channelId : ChannelId) :
    Option ChannelResult × Cache × List WalletCall :=
  match cache channelId with
  | some r => (some r, cache, [])
  | none =>
      let channelResult := w.getState channelId
      (channelResult,
       fun k => if k = channelId then channelResult else cache k,
       [WalletCall.getState channelId])

/-- Method `getChannelResult` (lines 183-187): like `getChannelState` but throws
(`No channel result for channelId ...`, the spec's `ChannelNotFound`) when no
channel result is available. -/
def getChannelResult (w : Wallet) (cache : Cache) (channelId : ChannelId) :
    Except RMError ChannelResult × Cache × List WalletCall :=
  match getChannelState w cache channelId with
  | (none, cache1, calls) => (Except.error RMError.channelNotFound, cache1, calls)
  | (some r, cache1, calls) => (Except.ok r, cache1, calls)

/-- Method `getExistingChannelId` (lines 40-50): derive the channel id from the
first signed state's channel constants, then resolve it through
`getChannelResult` — which throws when the id is not resolvable, so the
source's `: undefined` ternary arm is unreachable.  An inbound message with
no signed state would spread `undefined` into the constants; that degenerate
case is modelled as a type error and all theorems below assume at least one
signed state, as the spec's input contract does. -/
def getExistingChannelId (w : Wallet) (calculateChannelId : ChannelConstants → ChannelId)
    (cache : Cache) (message : WireMessage (List SignedState)) :
    Except RMError (Option ChannelId) × Cache × List WalletCall :=
  match message.data.head? with
  | none => (Except.error RMError.typeError, cache, [])
  | some firstState =>
      let channelId := calculateChannelId firstState.constants
      match getChannelResult w cache (calculateChannelId firstState.constants) with
      | (Except.error e, cache1, calls) => (Except.error e, cache1, calls)
      | (Except.ok _, cache1, calls) => (Except.ok (some channelId), cache1, calls)

/-- The synthesized join-branch reply (lines 104-116): sender and recipient
of the turn-0 outbox item, payload bundling the first signed state of the
turn-0 item and the first signed state of the post-fund state.  The source
reads both with `signedStates![0]`; a wallet message without a first signed
state is the degenerate case modelled as a type error. -/
def mkJoinMessage (outboundJoinedChannelState postFund2State : WireMessage WalletMessage) :
    Except RMError (WireMessage WalletMessage) :=
  match outboundJoinedChannelState.data.signedStates.head?,
        postFund2State.data.signedStates.head? with
  | some s0, some s3 =>
      Except.ok
        { sender := outboundJoinedChannelState.sender,
          recipient := outboundJoinedChannelState.recipient,
          data := { signedStates := [s0, s3] } }
  | _, _ => Except.error RMError.typeError

/-- The total in the channel (line 83-85): the sum of an allocation's item
amounts, `allocationItems.map(a => a.amount).reduce(BN.add, BN.from(0))`. -/
def allocationTotal (a : Allocation) : Nat :=
  (a.allocationItems.map AllocationItem.amount).foldl Nat.add 0

/-- The join branch of `inputStateChannelMessage` (lines 67-117): join the
channel (1 or 2 outbox items expected, otherwise `MalformedJoinOutbox`), sum
the first allocation's item amounts (a type error when there is no
allocation), take the zero-fund shortcut when the join produced two items
and the total is zero, otherwise call `updateChannelFunding` and take the
first item of its outbox (`outbox[0].params`, a type error when that outbox
is empty), fall through to `UndefinedPostFundState` when neither path gave a
state, and synthesize the two-state reply.  This branch never writes the
cache, so only the wallet-call trace is returned alongside the result. -/
def joinBranch (w : Wallet) (channelResult : ChannelResult) :
    Except RMError (WireMessage WalletMessage) × List WalletCall :=
  let joinOutbox := w.joinChannel channelResult
  let calls : List WalletCall := [WalletCall.joinChannel channelResult]
  if joinOutbox.length ≠ 1 ∧ joinOutbox.length ≠ 2 then
    (Except.error RMError.malformedJoinOutbox, calls)
  else
    match joinOutbox.head? with
    | none => (Except.error RMError.malformedJoinOutbox, calls)
    | some item0 =>
        match channelResult.allocations.head? with
        | none => (Except.error RMError.typeError, calls)
        | some alloc0 =>
            let totalInChannel := allocationTotal alloc0
            let zeroFundPostFund2State : Option (WireMessage WalletMessage) :=
              if joinOutbox.length = 2 ∧ totalInChannel = 0 then
                (joinOutbox[1]?).map OutboxItem.params
              else none
            let fundedStep :
                Except RMError (Option (WireMessage WalletMessage)) × List WalletCall :=
              match zeroFundPostFund2State with
              | some _ => (Except.ok none, [])
              | none =>
                  let fundOutbox :=
                    w.updateChannelFunding channelResult.channelId alloc0.token totalInChannel
                  let fundCall :=
                    [WalletCall.updateChannelFunding channelResult.channelId alloc0.token
                      totalInChannel]
                  match fundOutbox.head? with
                  | none => (Except.error RMError.typeError, fundCall)
                  | some itemF => (Except.ok (some itemF.params), fundCall)
            match fundedStep with
            | (Except.error e, fundCalls) => (Except.error e, calls ++ fundCalls)
            | (Except.ok fundedPostFund2State, fundCalls) =>
                match zeroFundPostFund2State.orElse (fun _ => fundedPostFund2State) with
                | none => (Except.error RMError.undefinedPostFundState, calls ++ fundCalls)
                | some postFund2State =>
                    match mkJoinMessage item0.params postFund2State with
                    | Except.error e => (Except.error e, calls ++ fundCalls)
                    | Except.ok m => (Except.ok m, calls ++ fundCalls)

/-- Method `inputStateChannelMessage` (lines 52-137): ingest the message through the
wallet, fail with `NoChannelUpdate` when no channel result comes back, cache
the (first) channel result unconditionally, then dispatch on
`(status, outbox length)`: `(proposed, 0)` join branch; `(running, 0)` no
reply; `(closed, 1)` forward the single outbox item's params verbatim;
anything else `UnrecognizedProtocolTransition`. -/
def inputStateChannelMessage (w : Wallet) (cache : Cache)
    (message : WireMessage WalletMessage) :
    Except RMError (Option (WireMessage WalletMessage)) × Cache × List WalletCall :=
  let pushResult := w.pushMessage message.data
  let channelResults := pushResult.1
  let pushOutbox := pushResult.2
  let pushCalls : List WalletCall := [WalletCall.pushMessage message.data]
  match channelResults.head? with
  | none => (Except.error RMError.noChannelUpdate, cache, pushCalls)
  | some channelResult =>
      let cache1 : Cache :=
        fun k => if k = channelResult.channelId then some channelResult else cache k
      if channelResult.status = ChannelStatus.proposed ∧ pushOutbox.length = 0 then
        match joinBranch w channelResult with
        | (Except.error e, joinCalls) => (Except.error e, cache1, pushCalls ++ joinCalls)
        | (Except.ok m, joinCalls) => (Except.ok (some m), cache1, pushCalls ++ joinCalls)
      else if channelResult.status = ChannelStatus.running ∧ pushOutbox.length = 0 then
        (Except.ok none, cache1, pushCalls)
      else if channelResult.status = ChannelStatus.closed ∧ pushOutbox.length = 1 then
        match pushOutbox.head? with
        | some item => (Except.ok (some item.params), cache1, pushCalls)
        | none => (Except.error RMError.typeError, cache1, pushCalls)
      else
        (Except.error RMError.unrecognizedProtocolTransition, cache1, pushCalls)

/-- Method `nextState` (lines 150-181): resolve the channel result (cache or
fetch — `ChannelNotFound` when unresolvable), compute the next application
state with the external pure function (substituting the empty attestation
when none is given), ask the wallet to update the channel, destructure the
first outbox item (a type error when the outbox is empty, before the cache
write), cache the new channel result, and return the outbound params.  No
check of the channel's status is performed. -/
def nextState (w : Wallet) (cns : ComputeNextState) (cache : Cache)
    (stateType : StateType) (channelId : ChannelId) (attestation : Option SCAttestation) :
    Except RMError (WireMessage WalletMessage) × Cache × List WalletCall :=
  match getChannelResult w cache channelId with
  | (Except.error e, cache1, calls1) => (Except.error e, cache1, calls1)
  | (Except.ok cr, cache1, calls1) =>
      let inputAttestation := attestation.getD { responseCID := "", signature := "" }
      let ns := cns cr.appData cr.allocations stateType inputAttestation
      let updateResult := w.updateChannel channelId ns.appData ns.allocation
      let calls2 := calls1 ++ [WalletCall.updateChannel channelId ns.appData ns.allocation]
      match updateResult.2.head? with
      | none => (Except.error RMError.typeError, cache1, calls2)
      | some item =>
          let cache2 : Cache :=
            fun k => if k = channelId then some updateResult.1 else cache1 k
          (Except.ok item.params, cache2, calls2)

/-- Method `provideAttestation` (lines 139-144): the shared state-advance routine
with target type `AttestationProvided`. -/
def provideAttestation (w : Wallet) (cns : ComputeNextState) (cache : Cache)
    (channelId : ChannelId) (attestation : SCAttestation) :
    Except RMError (WireMessage WalletMessage) × Cache × List WalletCall :=
  nextState w cns cache StateType.attestationProvided channelId (some attestation)

/-- Method `declineQuery` (lines 146-148): the shared state-advance routine with
target type `QueryDeclined` and no attestation. -/
def declineQuery (w : Wallet) (cns : ComputeNextState) (cache : Cache)
    (channelId : ChannelId) :
    Except RMError (WireMessage WalletMessage) × Cache × List WalletCall :=
  nextState w cns cache StateType.queryDeclined channelId none

/-!
Concrete fixtures: small wallets, caches and messages used by the
counterexamples and the witnesses below.
-/

/-- Fixed channel constants for concrete runs. -/
def constants0 : ChannelConstants :=
  { chainId := 1, channelNonce := 7, participants := ["p", "i"],
    challengeDuration := 100 }

/-- A signed state at a given turn over `constants0`. -/
def sstate (n : Nat) : SignedState :=
  { constants := constants0, turnNum := n, sig := "sg" }

/-- A channel-id function for concrete runs: every constant maps to `cA`. -/
def calcCid0 : ChannelConstants → ChannelId := fun _ => "cA"

/-- The empty cache. -/
def emptyCache : Cache := fun _ => none

/-- A default channel result (used where a wallet operation must return
something but the run under study never reads it). -/
def crDefault : ChannelResult :=
  { channelId := "cA", status := ChannelStatus.running, allocations := [],
    appData := "0x", turnNum := 3 }

/-- A wallet whose `getState` never finds a channel. -/
def wNoState : Wallet :=
  { pushMessage := fun _ => ([], []), joinChannel := fun _ => [],
    updateChannelFunding := fun _ _ _ => [],
    updateChannel := fun _ _ _ => (crDefault, []),
    getState := fun _ => none }

/-- An inbound message carrying one signed state (as `SignedState[]`). -/
def msgA : WireMessage (List SignedState) :=
  { sender := "p", recipient := "i", data := [sstate 0] }

/-- A one-item allocation of amount 5. -/
def allocA : Allocation :=
  { token := "tA", allocationItems := [{ destination := "d", amount := 5 }] }

/-- A channel result in status `closed`. -/
def crClosed : ChannelResult :=
  { channelId := "c9", status := ChannelStatus.closed, allocations := [allocA],
    appData := "0xapp", turnNum := 9 }

/-- The channel result after a settlement update of `crClosed`. -/
def crClosedNext : ChannelResult :=
  { crClosed with appData := "0xnext", turnNum := 10 }

/-- The outbound wire message produced by the settlement wallet. -/
def wmSettle : WireMessage WalletMessage :=
  { sender := "i", recipient := "p", data := { signedStates := [sstate 10] } }

/-- A transition function that rewrites the app data and keeps allocations. -/
def cnsSimple : ComputeNextState :=
  fun _ allocs _ _ => { appData := "0xnext", allocation := allocs }

/-- A wallet whose `updateChannel` yields `crClosedNext` and one outbox item. -/
def wSettle : Wallet :=
  { pushMessage := fun _ => ([], []), joinChannel := fun _ => [],
    updateChannelFunding := fun _ _ _ => [],
    updateChannel := fun _ _ _ => (crClosedNext, [{ params := wmSettle }]),
    getState := fun _ => none }

/-- A cache holding only the closed channel `c9`. -/
def cacheWithClosed : Cache := fun k => if k = "c9" then some crClosed else none

/-- A concrete attestation. -/
def attQ : SCAttestation := { responseCID := "Qm", signature := "0xs" }

/-- A one-item allocation of amount 0. -/
def allocZero : Allocation :=
  { token := "tZ", allocationItems := [{ destination := "d", amount := 0 }] }

/-- A second allocation of amount 7 (for multi-allocation channels). -/
def allocB : Allocation :=
  { token := "tB", allocationItems := [{ destination := "d", amount := 7 }] }

/-- A proposed channel result with two allocations. -/
def crTwoAlloc : ChannelResult :=
  { channelId := "c2", status := ChannelStatus.proposed,
    allocations := [allocZero, allocB], appData := "0x", turnNum := 0 }

/-- The turn-0 countersignature message of the concrete join runs. -/
def wm0 : WireMessage WalletMessage :=
  { sender := "i", recipient := "p", data := { signedStates := [sstate 0] } }

/-- The turn-3 post-fund message of the concrete join runs. -/
def wm3 : WireMessage WalletMessage :=
  { sender := "i", recipient := "p", data := { signedStates := [sstate 3] } }

/-- A generic inbound payer message. -/
def msgIn : WireMessage WalletMessage :=
  { sender := "p", recipient := "i", data := { signedStates := [sstate 0] } }

/-- The expected synthesized join reply of the concrete join runs. -/
def msg0 : WireMessage WalletMessage :=
  { sender := "i", recipient := "p",
    data := { signedStates := [sstate 0, sstate 3] } }

/-- A wallet whose ingestion yields the two-allocation proposed channel and
whose join yields two outbox items. -/
def wTwoAlloc : Wallet :=
  { pushMessage := fun _ => ([crTwoAlloc], []),
    joinChannel := fun _ => [{ params := wm0 }, { params := wm3 }],
    updateChannelFunding := fun _ _ _ => [],
    updateChannel := fun _ _ _ => (crDefault, []),
    getState := fun _ => none }

/-- Like `wTwoAlloc` but the join yields a single outbox item and the
funding call yields one item. -/
def wTwoAllocOne : Wallet :=
  { pushMessage := fun _ => ([crTwoAlloc], []),
    joinChannel := fun _ => [{ params := wm0 }],
    updateChannelFunding := fun _ _ _ => [{ params := wm3 }],
    updateChannel := fun _ _ _ => (crDefault, []),
    getState := fun _ => none }

/-- A proposed channel result whose single allocation totals zero. -/
def crZeroOne : ChannelResult :=
  { channelId := "cz", status := ChannelStatus.proposed,
    allocations := [allocZero], appData := "0x", turnNum := 0 }

/-- A wallet for the zero-total single-join-item run: the join yields one
outbox item, the funding call yields one item. -/
def wZeroOne : Wallet :=
  { pushMessage := fun _ => ([crZeroOne], []),
    joinChannel := fun _ => [{ params := wm0 }],
    updateChannelFunding := fun _ _ _ => [{ params := wm3 }],
    updateChannel := fun _ _ _ => (crDefault, []),
    getState := fun _ => none }

/-- A proposed channel result whose single allocation totals five. -/
def crFive : ChannelResult :=
  { channelId := "cf", status := ChannelStatus.proposed,
    allocations := [allocA], appData := "0x", turnNum := 0 }

/-- A wallet whose funding call returns an empty outbox. -/
def wFundEmpty : Wallet :=
  { pushMessage := fun _ => ([crFive], []),
    joinChannel := fun _ => [{ params := wm0 }],
    updateChannelFunding := fun _ _ _ => [],
    updateChannel := fun _ _ _ => (crDefault, []),
    getState := fun _ => none }

/-- A closed channel result for the closure-branch run. -/
def crC : ChannelResult :=
  { channelId := "cc", status := ChannelStatus.closed, allocations := [allocA],
    appData := "0x", turnNum := 12 }

/-- The outbox message the closure run forwards. -/
def wmClose : WireMessage WalletMessage :=
  { sender := "i", recipient := "p", data := { signedStates := [sstate 12] } }

/-- A wallet whose ingestion yields a closed channel and one outbox item. -/
def wClose : Wallet :=
  { pushMessage := fun _ => ([crC], [{ params := wmClose }]),
    joinChannel := fun _ => [],
    updateChannelFunding := fun _ _ _ => [],
    updateChannel := fun _ _ _ => (crDefault, []),
    getState := fun _ => none }

/-- A proposed channel result used for an unrecognized transition run. -/
def crP1 : ChannelResult :=
  { channelId := "cp", status := ChannelStatus.proposed,
    allocations := [allocA], appData := "0x", turnNum := 0 }

/-- A wallet whose ingestion yields `(proposed, outbox length 1)` — the
unrecognized protocol transition. -/
def wBad : Wallet :=
  { pushMessage := fun _ => ([crP1], [{ params := wmClose }]),
    joinChannel := fun _ => [],
    updateChannelFunding := fun _ _ _ => [],
    updateChannel := fun _ _ _ => (crDefault, []),
    getState := fun _ => none }

/-- Case split on a list by the shapes the join branch distinguishes:
illegal length, exactly one item, or exactly two items. -/
theorem list_join_shapes {α : Type} (l : List α) :
    (l.length ≠ 1 ∧ l.length ≠ 2) ∨ (∃ a, l = [a]) ∨ (∃ a b, l = [a, b]) := by
  match l with
  | [] => exact Or.inl (by simp)
  | [a] => exact Or.inr (Or.inl ⟨a, rfl⟩)
  | [a, b] => exact Or.inr (Or.inr ⟨a, b, rfl⟩)
  | a :: b :: c :: rest =>
      refine Or.inl ⟨?_, ?_⟩ <;> simp [List.length_cons]

/-- Running `joinBranch` on an outbox of illegal size fails with
`MalformedJoinOutbox` after the single join call. -/
theorem joinBranch_bad_length (w : Wallet) (cr : ChannelResult)
    (h : (w.joinChannel cr).length ≠ 1 ∧ (w.joinChannel cr).length ≠ 2) :
    joinBranch w cr =
      (Except.error RMError.malformedJoinOutbox, [WalletCall.joinChannel cr]) := by
  simp only [joinBranch]
  rw [if_pos h]

/-- Unfolding of `joinBranch` when the join produced exactly one outbox
item: the zero-fund shortcut cannot apply, so `updateChannelFunding` is
always called with the first allocation's token and total. -/
theorem joinBranch_one_item (w : Wallet) (cr : ChannelResult) (item0 : OutboxItem)
    (hjoin : w.joinChannel cr = [item0]) :
    joinBranch w cr =
      (match cr.allocations.head? with
       | none => (Except.error RMError.typeError, [WalletCall.joinChannel cr])
       | some alloc0 =>
           (match (w.updateChannelFunding cr.channelId alloc0.token
                     (allocationTotal alloc0)).head? with
            | none => Except.error RMError.typeError
            | some itemF => mkJoinMessage item0.params itemF.params,
            [WalletCall.joinChannel cr,
             WalletCall.updateChannelFunding cr.channelId alloc0.token
               (allocationTotal alloc0)])) := by
  simp only [joinBranch, hjoin]
  simp only [List.length_cons, List.length_nil, List.head?_cons]
  norm_num
  cases halloc : cr.allocations.head? with
  | none => simp [halloc]
  | some alloc0 =>
      cases hF : (w.updateChannelFunding cr.channelId alloc0.token
          (allocationTotal alloc0)).head? with
      | none => simp [halloc, hF, Option.orElse]
      | some itemF =>
          cases hM : mkJoinMessage item0.params itemF.params <;>
            simp [halloc, hF, hM, Option.orElse]

/-- Unfolding of `joinBranch` when the join produced exactly two outbox
items: the zero-fund shortcut applies exactly when the first allocation's
total is zero, otherwise the explicit funding call is made. -/
theorem joinBranch_two_items (w : Wallet) (cr : ChannelResult) (item0 item1 : OutboxItem)
    (hjoin : w.joinChannel cr = [item0, item1]) :
    joinBranch w cr =
      (match cr.allocations.head? with
       | none => (Except.error RMError.typeError, [WalletCall.joinChannel cr])
       | some alloc0 =>
           if allocationTotal alloc0 = 0 then
             (mkJoinMessage item0.params item1.params, [WalletCall.joinChannel cr])
           else
             (match (w.updateChannelFunding cr.channelId alloc0.token
                       (allocationTotal alloc0)).head? with
              | none => Except.error RMError.typeError
              | some itemF => mkJoinMessage item0.params itemF.params,
              [WalletCall.joinChannel cr,
               WalletCall.updateChannelFunding cr.channelId alloc0.token
                 (allocationTotal alloc0)])) := by
  simp only [joinBranch, hjoin]
  simp only [List.length_cons, List.length_nil, List.head?_cons]
  norm_num
  cases halloc : cr.allocations.head? with
  | none => simp [halloc]
  | some alloc0 =>
      by_cases htot : allocationTotal alloc0 = 0
      · cases hM : mkJoinMessage item0.params item1.params <;>
          simp [halloc, htot, hM, Option.orElse]
      · cases hF : (w.updateChannelFunding cr.channelId alloc0.token
            (allocationTotal alloc0)).head? with
        | none => simp [halloc, hF, htot, Option.orElse]
        | some itemF =>
            cases hM : mkJoinMessage item0.params itemF.params <;>
              simp [halloc, hF, hM, htot, Option.orElse]

/-- A list whose `head?` is `some a` is `a` followed by some tail. -/
theorem head_some_cons {α : Type} {l : List α} {a : α} (h : l.head? = some a) :
    ∃ t, l = a :: t := by
  cases l with
  | nil => simp at h
  | cons x t =>
      simp only [List.head?_cons, Option.some.injEq] at h
      exact ⟨t, by rw [h]⟩

/-- Inversion for `mkJoinMessage`: a successfully synthesized join reply
carries the first signed state of each of its two inputs, in order, and the
routing metadata of the first input. -/
theorem mkJoinMessage_ok {a b : WireMessage WalletMessage} {msg : WireMessage WalletMessage}
    (h : mkJoinMessage a b = Except.ok msg) :
    ∃ s0 s3, a.data.signedStates.head? = some s0 ∧ b.data.signedStates.head? = some s3 ∧
      msg = { sender := a.sender, recipient := a.recipient,
              data := { signedStates := [s0, s3] } } := by
  unfold mkJoinMessage at h
  cases hs0 : a.data.signedStates.head? with
  | none => rw [hs0] at h; simp at h
  | some s0 =>
      cases hs3 : b.data.signedStates.head? with
      | none => rw [hs0, hs3] at h; simp at h
      | some s3 =>
          rw [hs0, hs3] at h
          simp only [Except.ok.injEq] at h
          exact ⟨s0, s3, rfl, rfl, h.symm⟩

/-- Inversion for `joinBranch`: whenever it succeeds with a message, the
join produced at least one outbox item, the message is the synthesis of the
first item's first signed state and the post-fund state's first signed
state with the first item's routing metadata, and the post-fund state is
either the second join outbox item (zero-fund shortcut) or the head of the
`updateChannelFunding` outbox. -/
theorem joinBranch_ok_shape (w : Wallet) (cr : ChannelResult)
    (msg : WireMessage WalletMessage)
    (h : (joinBranch w cr).1 = Except.ok msg) :
    ∃ item0 restItems postFund s0 s3,
      w.joinChannel cr = item0 :: restItems ∧
      item0.params.data.signedStates.head? = some s0 ∧
      postFund.data.signedStates.head? = some s3 ∧
      msg = { sender := item0.params.sender, recipient := item0.params.recipient,
              data := { signedStates := [s0, s3] } } ∧
      ((∃ item1 alloc0 restAlloc, restItems = [item1] ∧
          cr.allocations = alloc0 :: restAlloc ∧ allocationTotal alloc0 = 0 ∧
          postFund = item1.params) ∨
       (∃ alloc0 restAlloc itemF restF, cr.allocations = alloc0 :: restAlloc ∧
          w.updateChannelFunding cr.channelId alloc0.token (allocationTotal alloc0) =
            itemF :: restF ∧
          postFund = itemF.params)) := by
  rcases list_join_shapes (w.joinChannel cr) with hbad | ⟨a, hj⟩ | ⟨a, b, hj⟩
  · rw [joinBranch_bad_length w cr hbad] at h
    simp at h
  · rw [joinBranch_one_item w cr a hj] at h
    cases halloc : cr.allocations.head? with
    | none => rw [halloc] at h; simp at h
    | some alloc0 =>
        rw [halloc] at h
        simp only at h
        cases hF : (w.updateChannelFunding cr.channelId alloc0.token
            (allocationTotal alloc0)).head? with
        | none => rw [hF] at h; simp at h
        | some itemF =>
            rw [hF] at h
            simp only at h
            obtain ⟨s0, s3, hs0, hs3, hmsg⟩ := mkJoinMessage_ok h
            obtain ⟨tA, htA⟩ := head_some_cons halloc
            obtain ⟨tF, htF⟩ := head_some_cons hF
            exact ⟨a, [], itemF.params, s0, s3, hj, hs0, hs3, hmsg,
              Or.inr ⟨alloc0, tA, itemF, tF, htA, htF, rfl⟩⟩
  · rw [joinBranch_two_items w cr a b hj] at h
    cases halloc : cr.allocations.head? with
    | none => rw [halloc] at h; simp at h
    | some alloc0 =>
        rw [halloc] at h
        simp only at h
        by_cases htot : allocationTotal alloc0 = 0
        · rw [if_pos htot] at h
          simp only at h
          obtain ⟨s0, s3, hs0, hs3, hmsg⟩ := mkJoinMessage_ok h
          obtain ⟨tA, htA⟩ := head_some_cons halloc
          exact ⟨a, [b], b.params, s0, s3, hj, hs0, hs3, hmsg,
            Or.inl ⟨b, alloc0, tA, rfl, htA, htot, rfl⟩⟩
        · rw [if_neg htot] at h
          simp only at h
          cases hF : (w.updateChannelFunding cr.channelId alloc0.token
              (allocationTotal alloc0)).head? with
          | none => rw [hF] at h; simp at h
          | some itemF =>
              rw [hF] at h
              simp only at h
              obtain ⟨s0, s3, hs0, hs3, hmsg⟩ := mkJoinMessage_ok h
              obtain ⟨tA, htA⟩ := head_some_cons halloc
              obtain ⟨tF, htF⟩ := head_some_cons hF
              exact ⟨a, [b], itemF.params, s0, s3, hj, hs0, hs3, hmsg,
                Or.inr ⟨alloc0, tA, itemF, tF, htA, htF, rfl⟩⟩

/-- Unfolding of `inputStateChannelMessage` on the `(proposed, empty outbox)`
ingestion outcome: the cache is updated with the channel result and the join
branch decides the reply and the remaining wallet calls. -/
theorem inputSCM_join_unfold (w : Wallet) (cache : Cache)
    (message : WireMessage WalletMessage) (cr : ChannelResult)
    (restCr : List ChannelResult)
    (hpush : w.pushMessage message.data = (cr :: restCr, []))
    (hst : cr.status = ChannelStatus.proposed) :
    inputStateChannelMessage w cache message =
      ((joinBranch w cr).1.map some,
       fun k => if k = cr.channelId then some cr else cache k,
       WalletCall.pushMessage message.data :: (joinBranch w cr).2) := by
  cases hJB : joinBranch w cr with
  | mk res jcalls =>
      cases res <;>
        simp [inputStateChannelMessage, hpush, hst, hJB, Except.map]

/-- Cache hit: `getChannelState` returns the cached result, leaves the
cache untouched, and performs no wallet call. -/
theorem getChannelState_hit (w : Wallet) (cache : Cache) (channelId : ChannelId)
    (r : ChannelResult) (h : cache channelId = some r) :
    getChannelState w cache channelId = (some r, cache, []) := by
  simp [getChannelState, h]

/-- Reading through `getChannelState` leaves every other cache key unchanged. -/
theorem getChannelState_frame (w : Wallet) (cache : Cache) (channelId k : ChannelId)
    (hk : k ≠ channelId) :
    (getChannelState w cache channelId).2.1 k = cache k := by
  unfold getChannelState
  cases h : cache channelId <;> simp [h, hk]

/-- Reading through `getChannelState` never drops an existing cache entry. -/
theorem getChannelState_preserve (w : Wallet) (cache : Cache) (channelId k : ChannelId)
    (r : ChannelResult) (h : cache k = some r) :
    (getChannelState w cache channelId).2.1 k = some r := by
  unfold getChannelState
  cases hc : cache channelId with
  | some r2 => simp [hc, h]
  | none =>
      by_cases hk : k = channelId
      · subst hk; rw [h] at hc; exact absurd hc (by simp)
      · simp [hc, hk, h]

/-- Resolving through `getChannelResult` yields the same cache and trace as `getChannelState`. -/
theorem getChannelResult_snd (w : Wallet) (cache : Cache) (channelId : ChannelId) :
    (getChannelResult w cache channelId).2 = (getChannelState w cache channelId).2 := by
  unfold getChannelResult
  rcases hgs : getChannelState w cache channelId with ⟨a, b, c⟩
  cases a <;> simp

/-- Cache hit for `getChannelResult`. -/
theorem getChannelResult_hit (w : Wallet) (cache : Cache) (channelId : ChannelId)
    (r : ChannelResult) (h : cache channelId = some r) :
    getChannelResult w cache channelId = (Except.ok r, cache, []) := by
  unfold getChannelResult
  rw [getChannelState_hit w cache channelId r h]

/-- Calling `nextState` on a cached channel always invokes `updateChannel` on that
channel — no status check guards the call. -/
theorem nextState_calls_updateChannel (w : Wallet) (cns : ComputeNextState)
    (cache : Cache) (stateType : StateType) (channelId : ChannelId)
    (att : Option SCAttestation) (cr : ChannelResult)
    (hcache : cache channelId = some cr) :
    ∃ a al, (nextState w cns cache stateType channelId att).2.2 =
      [WalletCall.updateChannel channelId a al] := by
  unfold nextState
  rw [getChannelResult_hit w cache channelId cr hcache]
  refine ⟨(cns cr.appData cr.allocations stateType
      (att.getD { responseCID := "", signature := "" })).appData,
    (cns cr.appData cr.allocations stateType
      (att.getD { responseCID := "", signature := "" })).allocation, ?_⟩
  cases hU : (w.updateChannel channelId
      ((cns cr.appData cr.allocations stateType
        (att.getD { responseCID := "", signature := "" })).appData)
      ((cns cr.appData cr.allocations stateType
        (att.getD { responseCID := "", signature := "" })).allocation)).2.head? <;>
    simp [hU]

/-- Calling `nextState` leaves every cache key other than its argument unchanged. -/
theorem nextState_frame (w : Wallet) (cns : ComputeNextState) (cache : Cache)
    (stateType : StateType) (channelId : ChannelId) (att : Option SCAttestation)
    (k : ChannelId) (hk : k ≠ channelId) :
    (nextState w cns cache stateType channelId att).2.1 k = cache k := by
  unfold nextState
  rcases hres : getChannelResult w cache channelId with ⟨res, cache1, calls1⟩
  have hc1 : cache1 k = cache k := by
    have hsnd := getChannelResult_snd w cache channelId
    rw [hres] at hsnd
    have : cache1 = (getChannelState w cache channelId).2.1 := by
      rw [← hsnd]
    rw [this, getChannelState_frame w cache channelId k hk]
  cases res with
  | error e => simpa using hc1
  | ok cr =>
      cases hU : (w.updateChannel channelId
          ((cns cr.appData cr.allocations stateType
            (att.getD { responseCID := "", signature := "" })).appData)
          ((cns cr.appData cr.allocations stateType
            (att.getD { responseCID := "", signature := "" })).allocation)).2.head? <;>
        simp [hU, hk, hc1]

/-- Calling `nextState` never drops an existing cache entry. -/
theorem nextState_preserve (w : Wallet) (cns : ComputeNextState) (cache : Cache)
    (stateType : StateType) (channelId : ChannelId) (att : Option SCAttestation)
    (k : ChannelId) (r : ChannelResult) (h : cache k = some r) :
    ((nextState w cns cache stateType channelId att).2.1 k).isSome = true := by
  unfold nextState
  rcases hres : getChannelResult w cache channelId with ⟨res, cache1, calls1⟩
  have hc1 : cache1 k = some r := by
    have hsnd := getChannelResult_snd w cache channelId
    rw [hres] at hsnd
    have : cache1 = (getChannelState w cache channelId).2.1 := by
      rw [← hsnd]
    rw [this, getChannelState_preserve w cache channelId k r h]
  cases res with
  | error e => simp [hc1]
  | ok cr =>
      cases hU : (w.updateChannel channelId
          ((cns cr.appData cr.allocations stateType
            (att.getD { responseCID := "", signature := "" })).appData)
          ((cns cr.appData cr.allocations stateType
            (att.getD { responseCID := "", signature := "" })).allocation)).2.head? with
      | none => simp [hU, hc1]
      | some item =>
          by_cases hk : k = channelId <;> simp [hU, hk, hc1]

/-- Handling a message writes at most the cache key of the first
channel result returned by the ingestion. -/
theorem inputSCM_frame (w : Wallet) (cache : Cache) (m : WireMessage WalletMessage)
    (k : ChannelId)
    (hk : ∀ cr restCr, (w.pushMessage m.data).1 = cr :: restCr → k ≠ cr.channelId) :
    (inputStateChannelMessage w cache m).2.1 k = cache k := by
  unfold inputStateChannelMessage
  rcases hp : w.pushMessage m.data with ⟨crs, outb⟩
  cases crs with
  | nil => simp
  | cons cr rest =>
      have hne : k ≠ cr.channelId := hk cr rest (by rw [hp])
      simp only [List.head?_cons]
      split
      · rcases joinBranch w cr with ⟨res, jcalls⟩
        cases res <;> simp [hne]
      · split
        · simp [hne]
        · split
          · cases outb.head? <;> simp [hne]
          · simp [hne]

/-- Handling a message through `inputStateChannelMessage` never drops an existing cache entry. -/
theorem inputSCM_preserve (w : Wallet) (cache : Cache) (m : WireMessage WalletMessage)
    (k : ChannelId) (r : ChannelResult) (h : cache k = some r) :
    ((inputStateChannelMessage w cache m).2.1 k).isSome = true := by
  unfold inputStateChannelMessage
  rcases hp : w.pushMessage m.data with ⟨crs, outb⟩
  cases crs with
  | nil => simp [h]
  | cons cr rest =>
      simp only [List.head?_cons]
      have hwrite : ∀ v : Option ChannelResult,
          ((if k = cr.channelId then some cr else cache k).isSome = true) := by
        intro v
        by_cases hk : k = cr.channelId <;> simp [hk, h]
      split
      · rcases joinBranch w cr with ⟨res, jcalls⟩
        cases res <;> by_cases hk : k = cr.channelId <;> simp [hk, h]
      · split
        · by_cases hk : k = cr.channelId <;> simp [hk, h]
        · split
          · cases outb.head? <;> by_cases hk : k = cr.channelId <;> simp [hk, h]
          · by_cases hk : k = cr.channelId <;> simp [hk, h]

/-- Resolving `getExistingChannelId` writes at most the cache key of the channel id
derived from the first signed state's constants. -/
theorem getExisting_frame (w : Wallet) (calcF : ChannelConstants → ChannelId)
    (cache : Cache) (msg : WireMessage (List SignedState)) (s0 : SignedState)
    (restS : List SignedState) (k : ChannelId)
    (hmsg : msg.data = s0 :: restS) (hk : k ≠ calcF s0.constants) :
    (getExistingChannelId w calcF cache msg).2.1 k = cache k := by
  unfold getExistingChannelId
  rw [hmsg]
  simp only [List.head?_cons]
  have hsnd := getChannelResult_snd w cache (calcF s0.constants)
  rcases hres : getChannelResult w cache (calcF s0.constants) with ⟨res, cache1, calls1⟩
  rw [hres] at hsnd
  have hc1 : cache1 k = cache k := by
    have : cache1 = (getChannelState w cache (calcF s0.constants)).2.1 := by rw [← hsnd]
    rw [this, getChannelState_frame w cache (calcF s0.constants) k hk]
  cases res <;> simpa using hc1

/-- Resolving `getExistingChannelId` never drops an existing cache entry. -/
theorem getExisting_preserve (w : Wallet) (calcF : ChannelConstants → ChannelId)
    (cache : Cache) (msg : WireMessage (List SignedState)) (k : ChannelId)
    (r : ChannelResult) (h : cache k = some r) :
    ((getExistingChannelId w calcF cache msg).2.1 k).isSome = true := by
  unfold getExistingChannelId
  cases hd : msg.data.head? with
  | none => simp [h]
  | some s0 =>
      have hsnd := getChannelResult_snd w cache (calcF s0.constants)
      rcases hres : getChannelResult w cache (calcF s0.constants) with ⟨res, cache1, calls1⟩
      rw [hres] at hsnd
      have hc1 : cache1 k = some r := by
        have : cache1 = (getChannelState w cache (calcF s0.constants)).2.1 := by rw [← hsnd]
        rw [this, getChannelState_preserve w cache (calcF s0.constants) k r h]
      cases res <;> simp [hres, hc1]

/-- Synthesis via `mkJoinMessage` either succeeds or fails with a type error. -/
theorem mkJoinMessage_outcomes (a b : WireMessage WalletMessage) :
    (∃ m, mkJoinMessage a b = Except.ok m) ∨
    mkJoinMessage a b = Except.error RMError.typeError := by
  unfold mkJoinMessage
  cases a.data.signedStates.head? <;> cases b.data.signedStates.head? <;> simp

/-- Every `joinBranch` outcome is a success, `MalformedJoinOutbox`, or a
type error — in particular `UndefinedPostFundState` is unreachable. -/
theorem joinBranch_outcomes (w : Wallet) (cr : ChannelResult) :
    (∃ m, (joinBranch w cr).1 = Except.ok m) ∨
    (joinBranch w cr).1 = Except.error RMError.malformedJoinOutbox ∨
    (joinBranch w cr).1 = Except.error RMError.typeError := by
  rcases list_join_shapes (w.joinChannel cr) with hbad | ⟨a, hj⟩ | ⟨a, b, hj⟩
  · rw [joinBranch_bad_length w cr hbad]
    right; left; rfl
  · rw [joinBranch_one_item w cr a hj]
    cases halloc : cr.allocations.head? with
    | none => right; right; rfl
    | some alloc0 =>
        simp only
        cases hF : (w.updateChannelFunding cr.channelId alloc0.token
            (allocationTotal alloc0)).head? with
        | none => right; right; rfl
        | some itemF =>
            simp only
            rcases mkJoinMessage_outcomes a.params itemF.params with ⟨m, hm⟩ | hm <;>
              rw [hm]
            · exact Or.inl ⟨m, rfl⟩
            · right; right; rfl
  · rw [joinBranch_two_items w cr a b hj]
    cases halloc : cr.allocations.head? with
    | none => right; right; rfl
    | some alloc0 =>
        simp only
        by_cases htot : allocationTotal alloc0 = 0
        · rw [if_pos htot]
          rcases mkJoinMessage_outcomes a.params b.params with ⟨m, hm⟩ | hm <;> rw [hm]
          · exact Or.inl ⟨m, rfl⟩
          · right; right; rfl
        · rw [if_neg htot]
          cases hF : (w.updateChannelFunding cr.channelId alloc0.token
              (allocationTotal alloc0)).head? with
          | none => right; right; rfl
          | some itemF =>
              simp only
              rcases mkJoinMessage_outcomes a.params itemF.params with ⟨m, hm⟩ | hm <;>
                rw [hm]
              · exact Or.inl ⟨m, rfl⟩
              · right; right; rfl

/-- Claim C1 (code bug in the source): the spec requires
`getExistingChannelId` to return "not found" (undefined), not an error, when
the identifier has no resolvable channel result.  The source instead resolves
through `getChannelResult`, which throws: at the concrete unresolvable input
(empty cache, wallet fetch yields none) the operation errors with
`ChannelNotFound` after the `getState` fetch, and in general the undefined
return is unreachable — every run either errors or returns the identifier. -/
theorem getExistingChannelId_unresolvable_errors :
    (getExistingChannelId wNoState calcCid0 emptyCache msgA).1 =
        Except.error RMError.channelNotFound ∧
    (getExistingChannelId wNoState calcCid0 emptyCache msgA).2.2 =
        [WalletCall.getState "cA"] ∧
    (∀ (w : Wallet) (calcF : ChannelConstants → ChannelId) (cache : Cache)
        (msg : WireMessage (List SignedState)),
      (∃ e, (getExistingChannelId w calcF cache msg).1 = Except.error e) ∨
      (∃ cid, (getExistingChannelId w calcF cache msg).1 = Except.ok (some cid))) := by
  refine ⟨rfl, rfl, ?_⟩
  intro w calcF cache msg
  cases hd : msg.data.head? with
  | none => exact Or.inl ⟨RMError.typeError, by simp [getExistingChannelId, hd]⟩
  | some s0 =>
      rcases hres : getChannelResult w cache (calcF s0.constants) with ⟨res, c1, t1⟩
      cases res with
      | error e => exact Or.inl ⟨e, by simp [getExistingChannelId, hd, hres]⟩
      | ok r =>
          exact Or.inr ⟨calcF s0.constants, by simp [getExistingChannelId, hd, hres]⟩

/-- Claim C2 counterexample: on a cached channel whose status is `closed`
(not `running`), `declineQuery` does not fail with any error — it succeeds
and it does invoke the wallet's `updateChannel`. -/
theorem declineQuery_closed_invokes_updateChannel :
    crClosed.status = ChannelStatus.closed ∧
    (declineQuery wSettle cnsSimple cacheWithClosed "c9").1 = Except.ok wmSettle ∧
    (declineQuery wSettle cnsSimple cacheWithClosed "c9").2.2 =
      [WalletCall.updateChannel "c9" "0xnext" [allocA]] :=
  ⟨rfl, rfl, rfl⟩

/-- Claim C2 (amended): the shared state-advance routine performs no status
check at all: for any cached channel result, of any status (`proposed`,
`closed`, ...), `provideAttestation` and `declineQuery` proceed to invoke
the wallet's `updateChannel` on that channel; no `ChannelNotRunning`
rejection exists in the code. -/
theorem settlement_no_status_check (w : Wallet) (cns : ComputeNextState)
    (cache : Cache) (channelId : ChannelId) (att : SCAttestation)
    (cr : ChannelResult) (hcache : cache channelId = some cr) :
    (∃ a al, (provideAttestation w cns cache channelId att).2.2 =
        [WalletCall.updateChannel channelId a al]) ∧
    (∃ a al, (declineQuery w cns cache channelId).2.2 =
        [WalletCall.updateChannel channelId a al]) :=
  ⟨nextState_calls_updateChannel w cns cache StateType.attestationProvided
      channelId (some att) cr hcache,
   nextState_calls_updateChannel w cns cache StateType.queryDeclined
      channelId none cr hcache⟩

/-- Witness for claim C2's amended theorem, at the concrete closed channel. -/
theorem settlement_no_status_check_witness :
    (∃ a al, (provideAttestation wSettle cnsSimple cacheWithClosed "c9" attQ).2.2 =
        [WalletCall.updateChannel "c9" a al]) ∧
    (∃ a al, (declineQuery wSettle cnsSimple cacheWithClosed "c9").2.2 =
        [WalletCall.updateChannel "c9" a al]) :=
  settlement_no_status_check wSettle cnsSimple cacheWithClosed "c9" attQ crClosed rfl

/-- Claim C3 counterexample: a join-branch run on a channel result carrying
two allocations does not fail — it succeeds, proceeding with the first
allocation only (no `UnsupportedAllocationShape` error exists in the code). -/
theorem multi_allocation_not_rejected :
    crTwoAlloc.allocations.length = 2 ∧
    (inputStateChannelMessage wTwoAlloc emptyCache msgIn).1 =
      Except.ok (some msg0) :=
  ⟨rfl, rfl⟩

/-- Claim C3 (amended): the join branch performs no allocation-count check;
it computes the funding total and token from the first allocation only,
whatever the remaining allocations are, and makes the funding call with
exactly those values. -/
theorem joinBranch_uses_first_allocation (w : Wallet) (cr : ChannelResult)
    (alloc0 : Allocation) (restAlloc : List Allocation) (item0 : OutboxItem)
    (halloc : cr.allocations = alloc0 :: restAlloc)
    (hjoin : w.joinChannel cr = [item0]) :
    (joinBranch w cr).2 =
      [WalletCall.joinChannel cr,
       WalletCall.updateChannelFunding cr.channelId alloc0.token
         (allocationTotal alloc0)] := by
  rw [joinBranch_one_item w cr item0 hjoin, halloc]
  simp only [List.head?_cons]

/-- Witness for claim C3's amended theorem: a two-allocation channel whose
funding call uses the first allocation's token and total. -/
theorem joinBranch_uses_first_allocation_witness :
    (joinBranch wTwoAllocOne crTwoAlloc).2 =
      [WalletCall.joinChannel crTwoAlloc,
       WalletCall.updateChannelFunding "c2" "tZ" 0] :=
  joinBranch_uses_first_allocation wTwoAllocOne crTwoAlloc allocZero [allocB]
    { params := wm0 } rfl rfl

/-- Claim C4 counterexample: a channel whose single allocation sums to zero,
but whose join produced only one outbox item, still makes the explicit
`updateChannelFunding` call — the zero-fund shortcut is not taken. -/
theorem zero_total_single_item_still_funds :
    allocationTotal allocZero = 0 ∧
    (inputStateChannelMessage wZeroOne emptyCache msgIn).2.2 =
      [WalletCall.pushMessage msgIn.data, WalletCall.joinChannel crZeroOne,
       WalletCall.updateChannelFunding "cz" "tZ" 0] :=
  ⟨rfl, rfl⟩

/-- Claim C4 (amended): for a zero-total first allocation the zero-fund
shortcut (no funding call) is taken exactly when the join produced two
outbox items; with a single join outbox item the explicit funding call is
made even though the total is zero. -/
theorem zeroFund_shortcut_characterization (w : Wallet) (cr : ChannelResult)
    (alloc0 : Allocation) (restAlloc : List Allocation)
    (halloc : cr.allocations = alloc0 :: restAlloc)
    (htot : allocationTotal alloc0 = 0) :
    (∀ item0 item1, w.joinChannel cr = [item0, item1] →
      (joinBranch w cr).2 = [WalletCall.joinChannel cr]) ∧
    (∀ item0, w.joinChannel cr = [item0] →
      (joinBranch w cr).2 =
        [WalletCall.joinChannel cr,
         WalletCall.updateChannelFunding cr.channelId alloc0.token 0]) := by
  constructor
  · intro item0 item1 hj
    rw [joinBranch_two_items w cr item0 item1 hj, halloc]
    simp [List.head?_cons, htot]
  · intro item0 hj
    rw [joinBranch_one_item w cr item0 hj, halloc]
    cases hF : (w.updateChannelFunding cr.channelId alloc0.token
        (allocationTotal alloc0)).head? <;> simp [List.head?_cons, htot, hF]

/-- Witness for claim C4's amended theorem: the two-item zero-total run
takes the shortcut, the one-item zero-total run funds. -/
theorem zeroFund_shortcut_characterization_witness :
    (joinBranch wTwoAlloc crTwoAlloc).2 = [WalletCall.joinChannel crTwoAlloc] ∧
    (joinBranch wZeroOne crZeroOne).2 =
      [WalletCall.joinChannel crZeroOne,
       WalletCall.updateChannelFunding "cz" "tZ" 0] :=
  ⟨(zeroFund_shortcut_characterization wTwoAlloc crTwoAlloc allocZero [allocB]
      rfl rfl).1 { params := wm0 } { params := wm3 } rfl,
   (zeroFund_shortcut_characterization wZeroOne crZeroOne allocZero []
      rfl rfl).2 { params := wm0 } rfl⟩

/-- Claim C5: whenever the join branch of `inputStateChannelMessage` returns
a message, that message bundles exactly two signed states — the first signed
state of the turn-0 join outbox item and the first signed state of the
post-fund state, in that order — and carries the sender and recipient of the
turn-0 outbox item; the post-fund state is the second join outbox item
(zero-fund shortcut) or the head of the `updateChannelFunding` outbox. -/
theorem join_reply_two_states (w : Wallet) (cache : Cache)
    (message : WireMessage WalletMessage) (cr : ChannelResult)
    (restCr : List ChannelResult) (msg : WireMessage WalletMessage)
    (hpush : w.pushMessage message.data = (cr :: restCr, []))
    (hst : cr.status = ChannelStatus.proposed)
    (hok : (inputStateChannelMessage w cache message).1 = Except.ok (some msg)) :
    ∃ item0 restItems postFund s0 s3,
      w.joinChannel cr = item0 :: restItems ∧
      item0.params.data.signedStates.head? = some s0 ∧
      postFund.data.signedStates.head? = some s3 ∧
      msg = { sender := item0.params.sender, recipient := item0.params.recipient,
              data := { signedStates := [s0, s3] } } ∧
      ((∃ item1 alloc0 restAlloc, restItems = [item1] ∧
          cr.allocations = alloc0 :: restAlloc ∧ allocationTotal alloc0 = 0 ∧
          postFund = item1.params) ∨
       (∃ alloc0 restAlloc itemF restF, cr.allocations = alloc0 :: restAlloc ∧
          w.updateChannelFunding cr.channelId alloc0.token (allocationTotal alloc0) =
            itemF :: restF ∧ postFund = itemF.params)) := by
  rw [inputSCM_join_unfold w cache message cr restCr hpush hst] at hok
  have hok1 : (joinBranch w cr).1.map some = Except.ok (some msg) := hok
  have hjb : (joinBranch w cr).1 = Except.ok msg := by
    cases hJ : (joinBranch w cr).1 with
    | error e => rw [hJ] at hok1; simp [Except.map] at hok1
    | ok m =>
        rw [hJ] at hok1
        simp [Except.map] at hok1
        rw [hok1]
  exact joinBranch_ok_shape w cr msg hjb

/-- Witness for claim C5 at the concrete zero-fund join run. -/
theorem join_reply_two_states_witness :
    ∃ item0 restItems postFund s0 s3,
      wTwoAlloc.joinChannel crTwoAlloc = item0 :: restItems ∧
      item0.params.data.signedStates.head? = some s0 ∧
      postFund.data.signedStates.head? = some s3 ∧
      msg0 = { sender := item0.params.sender, recipient := item0.params.recipient,
               data := { signedStates := [s0, s3] } } ∧
      ((∃ item1 alloc0 restAlloc, restItems = [item1] ∧
          crTwoAlloc.allocations = alloc0 :: restAlloc ∧ allocationTotal alloc0 = 0 ∧
          postFund = item1.params) ∨
       (∃ alloc0 restAlloc itemF restF, crTwoAlloc.allocations = alloc0 :: restAlloc ∧
          wTwoAlloc.updateChannelFunding crTwoAlloc.channelId alloc0.token
              (allocationTotal alloc0) = itemF :: restF ∧ postFund = itemF.params)) :=
  join_reply_two_states wTwoAlloc emptyCache msgIn crTwoAlloc [] msg0 rfl rfl rfl

/-- Claim C6 counterexample: when `updateChannelFunding` returns an empty
outbox, the run fails — but with the JavaScript type error of reading
`.outbox[0].params` on a missing item, not with `UndefinedPostFundState`. -/
theorem empty_funding_outbox_fails_with_typeError :
    (inputStateChannelMessage wFundEmpty emptyCache msgIn).1 =
      Except.error RMError.typeError :=
  rfl

/-- Claim C6 (amended): when the explicit funding step yields an empty
outbox the join branch of `inputStateChannelMessage` fails with a type
error, and no run of `inputStateChannelMessage` ever fails with
`UndefinedPostFundState` — every outcome is a success or one of
`NoChannelUpdate`, `MalformedJoinOutbox`, `UnrecognizedProtocolTransition`,
or a type error, so the guarded `UndefinedPostFundState` throw is
unreachable. -/
theorem funding_failure_is_typeError :
    (∀ (w : Wallet) (cache : Cache) (m : WireMessage WalletMessage)
        (cr : ChannelResult) (restCr : List ChannelResult) (alloc0 : Allocation)
        (restAlloc : List Allocation) (item0 : OutboxItem),
        w.pushMessage m.data = (cr :: restCr, []) →
        cr.status = ChannelStatus.proposed →
        cr.allocations = alloc0 :: restAlloc →
        w.joinChannel cr = [item0] →
        w.updateChannelFunding cr.channelId alloc0.token (allocationTotal alloc0) = [] →
        (inputStateChannelMessage w cache m).1 = Except.error RMError.typeError) ∧
    (∀ (w : Wallet) (cache : Cache) (m : WireMessage WalletMessage),
        (∃ r, (inputStateChannelMessage w cache m).1 = Except.ok r) ∨
        (inputStateChannelMessage w cache m).1 = Except.error RMError.noChannelUpdate ∨
        (inputStateChannelMessage w cache m).1 = Except.error RMError.malformedJoinOutbox ∨
        (inputStateChannelMessage w cache m).1 =
          Except.error RMError.unrecognizedProtocolTransition ∨
        (inputStateChannelMessage w cache m).1 = Except.error RMError.typeError) := by
  constructor
  · intro w cache m cr restCr alloc0 restAlloc item0 hpush hst halloc hjoin hfund
    rw [inputSCM_join_unfold w cache m cr restCr hpush hst]
    show (joinBranch w cr).1.map some = Except.error RMError.typeError
    rw [joinBranch_one_item w cr item0 hjoin, halloc]
    simp [List.head?_cons, hfund, Except.map]
  · intro w cache m
    unfold inputStateChannelMessage
    rcases hp : w.pushMessage m.data with ⟨crs, outb⟩
    cases crs with
    | nil => right; left; rfl
    | cons cr rest =>
        simp only [List.head?_cons]
        split
        · rcases joinBranch_outcomes w cr with ⟨mm, hm⟩ | hm | hm
          · have hpair : joinBranch w cr = (Except.ok mm, (joinBranch w cr).2) :=
              Prod.ext hm rfl
            rw [hpair]
            exact Or.inl ⟨some mm, rfl⟩
          · have hpair : joinBranch w cr =
                (Except.error RMError.malformedJoinOutbox, (joinBranch w cr).2) :=
              Prod.ext hm rfl
            rw [hpair]
            right; right; left; rfl
          · have hpair : joinBranch w cr =
                (Except.error RMError.typeError, (joinBranch w cr).2) :=
              Prod.ext hm rfl
            rw [hpair]
            right; right; right; right; rfl
        · split
          · exact Or.inl ⟨none, rfl⟩
          · split
            · cases outb.head? with
              | none => right; right; right; right; rfl
              | some item => exact Or.inl ⟨some item.params, rfl⟩
            · right; right; right; left; rfl

/-- Witness for claim C6's amended theorem at the concrete empty-funding
wallet. -/
theorem funding_failure_is_typeError_witness :
    (inputStateChannelMessage wFundEmpty emptyCache msgIn).1 =
      Except.error RMError.typeError :=
  funding_failure_is_typeError.1 wFundEmpty emptyCache msgIn crFive [] allocA []
    { params := wm0 } rfl rfl rfl rfl rfl

/-- Claim C7: on an ingestion outcome of status `closed` with exactly one
outbox item, `inputStateChannelMessage` returns that single outbox item's
`params` unchanged, as the outbound wire message. -/
theorem closure_branch_forwards_verbatim (w : Wallet) (cache : Cache)
    (message : WireMessage WalletMessage) (cr : ChannelResult)
    (restCr : List ChannelResult) (item : OutboxItem)
    (hpush : w.pushMessage message.data = (cr :: restCr, [item]))
    (hclosed : cr.status = ChannelStatus.closed) :
    (inputStateChannelMessage w cache message).1 = Except.ok (some item.params) := by
  simp [inputStateChannelMessage, hpush, hclosed]

/-- Witness for claim C7 at the concrete closure run. -/
theorem closure_branch_forwards_verbatim_witness :
    (inputStateChannelMessage wClose emptyCache msgIn).1 =
      Except.ok (some wmClose) :=
  closure_branch_forwards_verbatim wClose emptyCache msgIn crC []
    { params := wmClose } rfl rfl

/-- Claim C8: whenever ingestion returns a channel result, the cache entry
for that result's identifier is replaced with it before branch dispatch —
in every run, including those that subsequently fail (the update is not
rolled back on error). -/
theorem cache_update_unconditional (w : Wallet) (cache : Cache)
    (message : WireMessage WalletMessage) (cr : ChannelResult)
    (restCr : List ChannelResult)
    (hpush : (w.pushMessage message.data).1 = cr :: restCr) :
    (inputStateChannelMessage w cache message).2.1 cr.channelId = some cr := by
  unfold inputStateChannelMessage
  rcases hp : w.pushMessage message.data with ⟨crs, outb⟩
  rw [hp] at hpush
  have hcrs : crs = cr :: restCr := hpush
  subst hcrs
  simp only [List.head?_cons]
  split
  · rcases joinBranch w cr with ⟨res, jcalls⟩
    cases res <;> simp
  · split
    · simp
    · split
      · cases outb.head? <;> simp
      · simp

/-- Witness for claim C8: the cache is updated even in a run that fails
with `UnrecognizedProtocolTransition`. -/
theorem cache_update_unconditional_witness :
    (inputStateChannelMessage wBad emptyCache msgIn).2.1 "cp" = some crP1 ∧
    (inputStateChannelMessage wBad emptyCache msgIn).1 =
      Except.error RMError.unrecognizedProtocolTransition :=
  ⟨cache_update_unconditional wBad emptyCache msgIn crP1 [] rfl, rfl⟩

/-- Claim C9: cache reads are idempotent — once an identifier is cached,
`getChannelState` returns the cached result, leaves the cache unchanged and
performs no wallet `getState` call, and a repeated resolution returns the
same result again. -/
theorem cache_read_idempotent (w : Wallet) (cache : Cache) (channelId : ChannelId)
    (r : ChannelResult) (hcache : cache channelId = some r) :
    getChannelState w cache channelId = (some r, cache, []) ∧
    getChannelState w ((getChannelState w cache channelId).2.1) channelId =
      (some r, cache, []) := by
  have h1 := getChannelState_hit w cache channelId r hcache
  refine ⟨h1, ?_⟩
  rw [h1]
  exact getChannelState_hit w cache channelId r hcache

/-- Witness for claim C9 at the concrete cached channel. -/
theorem cache_read_idempotent_witness :
    getChannelState wSettle cacheWithClosed "c9" = (some crClosed, cacheWithClosed, []) ∧
    getChannelState wSettle ((getChannelState wSettle cacheWithClosed "c9").2.1) "c9" =
      (some crClosed, cacheWithClosed, []) :=
  cache_read_idempotent wSettle cacheWithClosed "c9" crClosed rfl

/-- Claim C10: every public operation writes at most the single cache entry
it concerns — `inputStateChannelMessage` the identifier of the first channel
result returned by ingestion, `provideAttestation` and `declineQuery` their
`channelId` argument, `getExistingChannelId` the derived identifier — and no
operation ever evicts an existing entry. -/
theorem cache_single_key_frame :
    (∀ (w : Wallet) (cache : Cache) (m : WireMessage WalletMessage) (k : ChannelId),
        (∀ cr restCr, (w.pushMessage m.data).1 = cr :: restCr → k ≠ cr.channelId) →
        (inputStateChannelMessage w cache m).2.1 k = cache k) ∧
    (∀ (w : Wallet) (cns : ComputeNextState) (cache : Cache) (channelId : ChannelId)
        (att : SCAttestation) (k : ChannelId), k ≠ channelId →
        (provideAttestation w cns cache channelId att).2.1 k = cache k) ∧
    (∀ (w : Wallet) (cns : ComputeNextState) (cache : Cache) (channelId : ChannelId)
        (k : ChannelId), k ≠ channelId →
        (declineQuery w cns cache channelId).2.1 k = cache k) ∧
    (∀ (w : Wallet) (calcF : ChannelConstants → ChannelId) (cache : Cache)
        (msg : WireMessage (List SignedState)) (s0 : SignedState)
        (restS : List SignedState) (k : ChannelId),
        msg.data = s0 :: restS → k ≠ calcF s0.constants →
        (getExistingChannelId w calcF cache msg).2.1 k = cache k) ∧
    (∀ (w : Wallet) (cache : Cache) (m : WireMessage WalletMessage) (k : ChannelId)
        (r : ChannelResult), cache k = some r →
        ((inputStateChannelMessage w cache m).2.1 k).isSome = true) ∧
    (∀ (w : Wallet) (cns : ComputeNextState) (cache : Cache) (channelId : ChannelId)
        (att : SCAttestation) (k : ChannelId) (r : ChannelResult), cache k = some r →
        ((provideAttestation w cns cache channelId att).2.1 k).isSome = true) ∧
    (∀ (w : Wallet) (cns : ComputeNextState) (cache : Cache) (channelId : ChannelId)
        (k : ChannelId) (r : ChannelResult), cache k = some r →
        ((declineQuery w cns cache channelId).2.1 k).isSome = true) ∧
    (∀ (w : Wallet) (calcF : ChannelConstants → ChannelId) (cache : Cache)
        (msg : WireMessage (List SignedState)) (k : ChannelId) (r : ChannelResult),
        cache k = some r →
        ((getExistingChannelId w calcF cache msg).2.1 k).isSome = true) :=
  ⟨inputSCM_frame,
   fun w cns cache channelId att k hk =>
     nextState_frame w cns cache StateType.attestationProvided channelId (some att) k hk,
   fun w cns cache channelId k hk =>
     nextState_frame w cns cache StateType.queryDeclined channelId none k hk,
   getExisting_frame,
   inputSCM_preserve,
   fun w cns cache channelId att k r h =>
     nextState_preserve w cns cache StateType.attestationProvided channelId (some att) k r h,
   fun w cns cache channelId k r h =>
     nextState_preserve w cns cache StateType.queryDeclined channelId none k r h,
   getExisting_preserve⟩

/-- Witness for claim C10: a settlement call leaves an unrelated key
unchanged, and a lifecycle call does not evict an existing entry. -/
theorem cache_single_key_frame_witness :
    (declineQuery wSettle cnsSimple cacheWithClosed "c9").2.1 "zz" =
      cacheWithClosed "zz" ∧
    ((inputStateChannelMessage wClose cacheWithClosed msgIn).2.1 "c9").isSome = true :=
  ⟨cache_single_key_frame.2.2.1 wSettle cnsSimple cacheWithClosed "c9" "zz"
      (by decide),
   cache_single_key_frame.2.2.2.2.1 wClose cacheWithClosed msgIn "c9" crClosed rfl⟩

end ReceiptManager
